import Mathlib

/-!
# Verification of the `python-3-module-installer` WebDAV client core

Shallow embedding of `src/installer/install.py` (class `ModuleInstaller`,
class `WebDavXmlUtils`) and of the parts of the repository that the spec
describes but that are absent from `src/` (the `installer.urn` path model,
the `installer.connection` settings and the `installer.exceptions` error
taxonomy), together with theorems settling the frozen claims.

Modelling conventions:
* Machine effects (HTTP exchange, filesystem) are parameters: each operation
  takes the response(s) the transport would return, or an oracle mapping a
  requested path to the server's answer, and produces a trace of issued
  protocol requests plus its outcome.
* A Python function that can raise returns `Except WebDavError` (typed
  errors from `installer.exceptions`) or `Outcome` when an uncaught builtin
  Python exception (`TypeError`, `ValueError`) matters.
* Percent-encoding (`quote`/`unquote`) is applied only on the wire and is
  the identity in this model, as the spec states encoding never affects
  stored or compared paths.
-/

set_option autoImplicit false

deriving instance DecidableEq for Except

namespace Installer

/-- Typed error taxonomy. Modelled from the spec: `installer/exceptions.py`
is not under `src/`; the spec (§7) lists the error kinds and treats them as
a taxonomy of typed WebDAV failures, distinct from Python's builtin
`ValueError`/`KeyError`/`RuntimeWarning`. Constructor payloads follow the
raise sites in `src/installer/install.py`. -/
inductive WebDavError where
  | noConnection (hostname : String)
  | connectionException (message : String)
  | notEnoughSpace
  | remoteResourceNotFound (path : String)
  | resourceLocked (path : String)
  | methodNotSupported (name : String) (server : String)
  | responseErrorCode (url : String) (code : Nat) (message : String)
  | remoteParentNotFound (path : String)
  | optionNotValid (name : String) (value : String)
  | localResourceNotFound (path : String)
deriving DecidableEq, Repr

/-- Outcome of running a piece of Python code: a normal return, a raised
typed WebDAV error, or an uncaught builtin Python exception (kept by its
class name, e.g. `TypeError`). -/
inductive Outcome (α : Type) where
  | ok (value : α)
  | fail (e : WebDavError)
  | crash (exc : String)
deriving DecidableEq, Repr

/-- An HTTP response as seen by `execute_request`: its status code and raw
body (headers that matter elsewhere are modelled at their use sites). -/
structure WebDavResponse where
  status : Nat
  body : String
deriving DecidableEq, Repr

/-- A protocol request issued by the client, for trace-based statements
about which requests an operation performs. -/
inductive ReqOp where
  | head (path : String)
  | mkcol (path : String)
  | put (path : String)
deriving DecidableEq, Repr

/-- Connection settings. Modelled from the spec: `installer/connection.py`
(`WebDAVSettings`) is not under `src/`; fields follow the spec (§3
ConnectionSettings) and the attribute accesses in
`src/installer/install.py` (`self.webdav.hostname`, `.root`, `.login`,
`.password`, `.token`, `.cert_path`, `.key_path`, `.disable_check`).
An empty string models an unset optional value, matching Python
truthiness tests such as `if self.webdav.token:`. -/
structure WebDAVSettings where
  hostname : String
  root : String
  login : String
  password : String
  token : String
  cert_path : String
  key_path : String
  disable_check : Bool
deriving DecidableEq, Repr

/-! ## Path model

Modelled from the spec: `installer/urn.py` (class `Urn`) is not under
`src/`. Spec §4.1: a raw path plus an optional directory hint normalize to
an absolute path with a single leading separator, collapsed duplicate
separators, and a trailing separator present iff the resource is a
directory; `parent()` is one level up; `filename()` is the last segment
without separators; `compare` identifies paths differing only by a
trailing separator. A normalized path is represented by its list of
non-empty segments. -/

/-- Splitting a character list at `/`, dropping empty pieces; `cur` holds
the characters of the pending segment in reverse. (Character-level model
of `raw.split("/")` followed by dropping empty parts.) -/
def pathSegsAux : List Char → List Char → List String
  | [], cur => if cur.isEmpty then [] else [String.mk cur.reverse]
  | c :: rest, cur =>
    if c = '/' then
      if cur.isEmpty then pathSegsAux rest []
      else String.mk cur.reverse :: pathSegsAux rest []
    else pathSegsAux rest (c :: cur)

/-- Non-empty `/`-separated segments of a raw path (normalization collapses
duplicate separators, so empty segments are dropped). -/
def pathSegs (raw : String) : List String :=
  pathSegsAux raw.data []

/-- Segments joined by single separators. -/
def joinSegs : List String → String
  | [] => ""
  | [s] => s
  | s :: rest => s ++ "/" ++ joinSegs rest

/-- Normalized directory path for a segment list: leading separator,
segments joined by single separators, trailing separator. -/
def dirPath (segs : List String) : String :=
  if segs.isEmpty then "/" else "/" ++ joinSegs segs ++ "/"

/-- Normalized file path for a segment list: as `dirPath` but with no
trailing separator. -/
def filePathOf (segs : List String) : String :=
  if segs.isEmpty then "/" else "/" ++ joinSegs segs

/-- The `Urn` value: the raw path handed to the constructor and the
`directory=` hint. -/
structure Urn where
  raw : String
  dirHint : Bool
deriving DecidableEq, Repr

/-- Whether a string's last character is the separator. -/
def endsInSlash (s : String) : Bool :=
  s.data.getLast? == some '/'

/-- Directory flag: the hint, or a trailing separator on the raw path. -/
def Urn.isDirFlag (u : Urn) : Bool :=
  u.dirHint || endsInSlash u.raw

/-- Normalized path of the urn. -/
def Urn.path (u : Urn) : String :=
  if u.isDirFlag then dirPath (pathSegs u.raw) else filePathOf (pathSegs u.raw)

/-- Last path segment without separators (spec §4.1 `filename()`). -/
def Urn.filename (u : Urn) : String :=
  ((pathSegs u.raw).getLast?).getD ""

/-- Static normalization used before comparisons: collapse duplicate
separators and drop a trailing one. -/
def Urn.normalize_path (p : String) : String :=
  filePathOf (pathSegs p)

/-- `compare(a, b)`: both normalize to the same node, a trailing separator
difference being ignored (spec §4.1). -/
def Urn.compare_path (a b : String) : Bool :=
  Urn.normalize_path a == Urn.normalize_path b

/-! ## Python builtin helpers -/

/-- Characters with surrounding whitespace removed (model of
`str.strip()`). -/
def trimChars (cs : List Char) : List Char :=
  (((cs.dropWhile Char.isWhitespace).reverse.dropWhile Char.isWhitespace)).reverse

/-- String with surrounding whitespace removed. -/
def pyStrip (s : String) : String :=
  String.mk (trimChars s.data)

/-- Decimal value of a non-empty all-digit character list. -/
def digitsVal (cs : List Char) : Option Nat :=
  if cs.isEmpty then none
  else if cs.all (fun c => c.isDigit) then
    some (cs.foldl (fun n c => n * 10 + (c.toNat - 48)) 0)
  else none

/-- Model of Python `int(s)` on a string: optional sign after stripping
whitespace, then decimal digits; `none` models the `ValueError` raise. -/
def pyInt (s : String) : Option Int :=
  match trimChars s.data with
  | '-' :: ds => (digitsVal ds).map (fun n => -(n : Int))
  | '+' :: ds => (digitsVal ds).map (fun n => (n : Int))
  | ds => (digitsVal ds).map (fun n => (n : Int))

/-- Model of Python `not x` for an `Optional[bool]` value: `not None` is
`True` because `None` is falsy. -/
def pyTruthyNot : Option Bool → Bool
  | some b => !b
  | none => true

/-! ## Request dispatcher (`ModuleInstaller.execute_request`, lines 234-269)

The HTTP exchange itself is a parameter: `execute_request` here receives
the response the transport produced for the built request and performs the
source's status classification, first match winning. -/

/-- `ModuleInstaller.get_url` (line 217): `hostname + root + path`. -/
def get_url (s : WebDAVSettings) (path : String) : String :=
  s.hostname ++ s.root ++ path

/-- Classification stage of `ModuleInstaller.execute_request`
(lines 259-269), applied to the response obtained for `action` at
`path`. -/
def execute_request (s : WebDAVSettings) (action path : String)
    (resp : WebDavResponse) : Except WebDavError WebDavResponse :=
  if resp.status = 507 then .error .notEnoughSpace
  else if resp.status = 404 then .error (.remoteResourceNotFound path)
  else if resp.status = 423 then .error (.resourceLocked path)
  else if resp.status = 405 then .error (.methodNotSupported action s.hostname)
  else if 400 ≤ resp.status then
    .error (.responseErrorCode (get_url s path) resp.status resp.body)
  else .ok resp

/-! ## Headers and authentication (`get_headers`, lines 169-191, and the
`auth=` argument of `execute_request`, lines 248-250) -/

/-- The per-action default header table `default_http_header`
(lines 92-103). -/
def default_http_header (action : String) : List String :=
  if action = "list" then ["Accept: */*", "Depth: 1"]
  else if action = "free" then ["Accept: */*", "Depth: 0", "Content-Type: text/xml"]
  else if action = "copy" then ["Accept: */*"]
  else if action = "move" then ["Accept: */*"]
  else if action = "mkdir" then ["Accept: */*", "Connection: Keep-Alive"]
  else if action = "clean" then ["Accept: */*", "Connection: Keep-Alive"]
  else if action = "check" then ["Accept: */*"]
  else if action = "info" then ["Accept: */*", "Depth: 1"]
  else if action = "get_property" then
    ["Accept: */*", "Depth: 1", "Content-Type: application/x-www-form-urlencoded"]
  else if action = "set_property" then
    ["Accept: */*", "Depth: 1", "Content-Type: application/x-www-form-urlencoded"]
  else []

/-- The raw header strings `get_headers` accumulates: the action's default
set, then the caller's extension list, then — iff a token is configured —
the bearer authorization header (lines 177-190). -/
def get_headers_raw (s : WebDAVSettings) (action : String)
    (headers_ext : List String) : List String :=
  (default_http_header action ++ headers_ext) ++
    (if s.token ≠ "" then ["Authorization: Bearer " ++ s.token] else [])

/-- Split at the first colon, the model of `s.split(':', 1)`: the parts
before and after it, or `none` when no colon occurs. -/
def splitFirstColon : List Char → Option (List Char × List Char)
  | [] => none
  | c :: rest =>
    if c = ':' then some ([], rest)
    else (splitFirstColon rest).map (fun p => (c :: p.1, p.2))

/-- One step of the final dict conversion of `get_headers` (line 191):
split on the first colon and strip both sides. A header without a colon
would crash the Python `dict` construction; it is mapped to an
empty-valued pair here and never arises from the tables above. -/
def split_header (h : String) : String × String :=
  match splitFirstColon h.data with
  | none => (pyStrip h, "")
  | some (k, v) => (pyStrip (String.mk k), pyStrip (String.mk v))

/-- `ModuleInstaller.get_headers`: the header dictionary as an association
list (later entries override earlier ones in Python's `dict`). -/
def get_headers (s : WebDAVSettings) (action : String)
    (headers_ext : List String) : List (String × String) :=
  (get_headers_raw s action headers_ext).map split_header

/-- The `auth=` argument built inside `execute_request` (lines 248-250):
basic credentials only when no token is configured, no session auth is
pre-set, and both login and password are non-empty. -/
def request_auth (s : WebDAVSettings) (sessionAuthSet : Bool) :
    Option (String × String) :=
  if (!(s.token ≠ "") && !sessionAuthSet) && (s.login ≠ "" && s.password ≠ "") then
    some (s.login, s.password)
  else none

/-! ## Existence check (`ModuleInstaller.check`, lines 326-343) -/

/-- `ModuleInstaller.check`: when the settings' `disable_check` toggle is
on, return `True` without issuing any request; otherwise issue the HEAD
request (the response is the `headResp` parameter), catch only
`RemoteResourceNotFound` from the dispatcher as `False`, let every other
classified error propagate, and answer `True` iff the status is 200.
Returns the issued request trace alongside the result. -/
def check (s : WebDAVSettings) (headResp : WebDavResponse) (path : String) :
    List ReqOp × Except WebDavError Bool :=
  if s.disable_check then ([], .ok true)
  else
    ([.head path],
      match execute_request s "check" path headResp with
      | .error (.remoteResourceNotFound _) => .ok false
      | .error e => .error e
      | .ok resp => .ok (resp.status == 200))

/-! ## Server oracle

An operation that issues several requests is parametrized by an oracle
giving, per requested path, the response the server would produce for each
method. The oracle is static: the source checks each parent before
creating anything below it, so a static assignment reproduces the
exchanged statuses of the runs the claims describe. -/

structure ServerOracle where
  headStatus : String → Nat
  mkcolStatus : String → Nat
  putStatus : String → Nat

/-- The HEAD response the oracle produces for a path (empty body: `check`
never reads it). -/
def ServerOracle.headResp (o : ServerOracle) (path : String) : WebDavResponse :=
  { status := o.headStatus path, body := "" }

/-! ## Directory creation (`ModuleInstaller.mkdir`, lines 346-366) -/

/-- The MKCOL step of `mkdir` (lines 361-366): classify the server's
response, treat `MethodNotSupported` as success `True`, propagate every
other classified error, and otherwise report whether the status is 200 or
201. -/
def mkcol_step (s : WebDAVSettings) (o : ServerOracle) (durnPath : String) :
    Except WebDavError Bool :=
  match execute_request s "mkdir" durnPath { status := o.mkcolStatus durnPath, body := "" } with
  | .error (.methodNotSupported _ _) => .ok true
  | .error e => .error e
  | .ok resp => .ok (resp.status == 200 || resp.status == 201)

/-- `ModuleInstaller.mkdir` on the directory with segment list `segs`:
check the parent (raising `RemoteParentNotFound` on a missing parent
without the recursive flag, or creating ancestors first with it), then
issue the MKCOL. `fuel` bounds the recursion depth; `none` models the
source's divergence when asked to create the root recursively while the
root's existence check keeps failing. -/
def mkdir_fuel (s : WebDAVSettings) (o : ServerOracle) :
    Nat → List String → Bool → Option (List ReqOp × Except WebDavError Bool)
  | 0, _, _ => none
  | fuel + 1, segs, recursive =>
    let parentPath := dirPath segs.dropLast
    let chk := check s (o.headResp parentPath) parentPath
    match chk.2 with
    | .error e => some (chk.1, .error e)
    | .ok true => some (chk.1 ++ [.mkcol (dirPath segs)], mkcol_step s o (dirPath segs))
    | .ok false =>
      if recursive then
        match mkdir_fuel s o fuel segs.dropLast true with
        | none => none
        | some (tr, .error e) => some (chk.1 ++ tr, .error e)
        | some (tr, .ok _) =>
          some (chk.1 ++ tr ++ [.mkcol (dirPath segs)], mkcol_step s o (dirPath segs))
      else some (chk.1, .error (.remoteParentNotFound (dirPath segs)))

/-- Entry point with sufficient fuel for any terminating run. -/
def mkdir (s : WebDAVSettings) (o : ServerOracle) (segs : List String)
    (recursive : Bool) : Option (List ReqOp × Except WebDavError Bool) :=
  mkdir_fuel s o (segs.length + 1) segs recursive

/-! ## File upload (`ModuleInstaller.upload_file`, lines 794-845) -/

/-- The PUT step of `upload_file` (lines 842-845): classify the server's
response to the upload request; the value of a successful upload is
discarded. -/
def put_step (s : WebDAVSettings) (o : ServerOracle) (path : String) :
    Except WebDavError Unit :=
  match execute_request s "upload" path { status := o.putStatus path, body := "" } with
  | .error e => .error e
  | .ok _ => .ok ()

/-- `ModuleInstaller.upload_file`: validate the local source and the remote
path, check the remote parent — creating missing ancestors via
`mkdir(recursive=True)` when `force` is set, raising `RemoteParentNotFound`
otherwise — then issue the PUT. `localExists`/`localIsDir` are the
`os.path` answers for `local_path`; the result is `none` only on the
inherited `mkdir` divergence. -/
def upload_file (s : WebDAVSettings) (o : ServerOracle) (local_path : String)
    (localExists localIsDir : Bool) (remote_path : String) (force : Bool) :
    Option (List ReqOp × Except WebDavError Unit) :=
  if !localExists then some ([], .error (.localResourceNotFound local_path))
  else if (Urn.mk remote_path false).isDirFlag then
    some ([], .error (.optionNotValid "remote_path" remote_path))
  else if localIsDir then some ([], .error (.optionNotValid "local_path" local_path))
  else
    let segs := pathSegs remote_path
    let parentPath := dirPath segs.dropLast
    let chk := check s (o.headResp parentPath) parentPath
    match chk.2 with
    | .error e => some (chk.1, .error e)
    | .ok true => some (chk.1 ++ [.put (filePathOf segs)], put_step s o (filePathOf segs))
    | .ok false =>
      if force then
        match mkdir_fuel s o (segs.dropLast.length + 1) segs.dropLast true with
        | none => none
        | some (tr, .error e) => some (chk.1 ++ tr, .error e)
        | some (tr, .ok _) =>
          some (chk.1 ++ tr ++ [.put (filePathOf segs)], put_step s o (filePathOf segs))
      else some (chk.1, .error (.remoteParentNotFound (filePathOf segs)))

/-! ## Directory upload (`ModuleInstaller.upload_directory`, lines 736-782) -/

/-- The hard-coded name list of the entry filter inside
`upload_directory`'s loop (lines 768-769). -/
def upload_entry_blacklist : List String :=
  ["abi", "utils", "venv", "Constants.py", "self_mixer.py", "idea", "__pycache__",
   "git", "nft.py", "holograph_nft.py", "eth_bridge.py", ".DS_Store",
   "self_mixer.py", "orbiter.py"]

/-- `a :: as` is a prefix of the second character list. -/
def charsHavePre : List Char → List Char → Bool
  | [], _ => true
  | _ :: _, [] => false
  | a :: as, b :: bs => a == b && charsHavePre as bs

/-- Occurrence of the first character list inside the second. -/
def charsHaveSub (sub' : List Char) : List Char → Bool
  | [] => charsHavePre sub' []
  | c :: cs => charsHavePre sub' (c :: cs) || charsHaveSub sub' cs

/-- Model of Python's `sub in s` substring test. -/
def strContainsSub (s sub' : String) : Bool :=
  charsHaveSub sub'.data s.data

/-- The `aboba` flag computed per entry (lines 767-773): set when any
blacklist name occurs in the resource name; such an entry is skipped. -/
def upload_entry_aboba (resource_name : String) : Bool :=
  upload_entry_blacklist.any (fun i => strContainsSub resource_name i)

/-- Steps `upload_directory` performs after validation: whether the remote
directory was deleted first, its recreation, and the local entries that
are recursively uploaded. -/
structure UploadDirSteps where
  deletedRemote : Bool
  recreatedRemote : Bool
  uploadedEntries : List String
deriving DecidableEq, Repr

/-- `ModuleInstaller.upload_directory` control flow: validate (the
`remote_path` urn is constructed with `directory=True`, so its own
directory validation never fails), delete the remote directory iff the
existence check succeeds, recreate it, then recurse into every local
entry whose name survives the blacklist filter. `remoteExists` is the
outcome of `check`, `entries` the local directory listing. -/
def upload_directory (local_path : String) (localIsDir localExists remoteExists : Bool)
    (entries : List String) : Except WebDavError UploadDirSteps :=
  if !localIsDir then .error (.optionNotValid "local_path" local_path)
  else if !localExists then .error (.localResourceNotFound local_path)
  else .ok { deletedRemote := remoteExists
             recreatedRemote := true
             uploadedEntries := entries.filter (fun n => !upload_entry_aboba n) }

/-! ## Chunked download with progress
(`ModuleInstaller.download_from`, lines 396-430, and the identical
streaming stage of `ModuleInstaller.download_file`, lines 510-523) -/

/-- `self.chunk_size` set in the constructor (line 165). -/
def chunk_size : Nat := 65536

/-- The response to the GET request as the streaming stage consumes it:
the raw `content-length` header if present, and the byte counts of the
chunks `iter_content` yields. -/
structure DownloadResponse where
  contentLengthHeader : Option String
  chunks : List Nat
deriving DecidableEq, Repr

/-- The loop of lines 426-430: for each received chunk the running counter
advances by `chunk_size` (not by the chunk's size) and the progress
callback is invoked with the counter and the total. Returns the argument
list of the per-chunk callback invocations. -/
def download_loop (total : Option Int) (cs : Nat) :
    List Nat → Nat → List (Nat × Option Int)
  | [], _ => []
  | _ :: rest, current => (current + cs, total) :: download_loop total cs rest (current + cs)

/-- Streaming stage of `ModuleInstaller.download_from`: parse the
`content-length` header into the total (absent header means `None`,
an unparsable value is an uncaught `ValueError`), invoke the callback once
with `(0, total)` before the first chunk, then once per chunk. The value
is the full list of `(current, total)` callback invocations in order. -/
def download_from (resp : DownloadResponse) : Outcome (List (Nat × Option Int)) :=
  match resp.contentLengthHeader with
  | none => .ok ((0, none) :: download_loop none chunk_size resp.chunks 0)
  | some clen =>
    match pyInt clen with
    | none => .crash "ValueError"
    | some n => .ok ((0, some n) :: download_loop (some n) chunk_size resp.chunks 0)

/-- Streaming stage of `ModuleInstaller.download_file` (lines 510-523):
textually the same header parse, zero call and loop as `download_from`,
writing to a local file instead of a buffer. -/
def download_file_stream (resp : DownloadResponse) : Outcome (List (Nat × Option Int)) :=
  match resp.contentLengthHeader with
  | none => .ok ((0, none) :: download_loop none chunk_size resp.chunks 0)
  | some clen =>
    match pyInt clen with
    | none => .crash "ValueError"
    | some n => .ok ((0, some n) :: download_loop (some n) chunk_size resp.chunks 0)

/-! ## Listing (`ModuleInstaller.list`, lines 279-312, and
`WebDavXmlUtils.parse_get_list_response`, lines 1286-1305) -/

/-- One `<response>` element of a well-formed multistatus body: its
`<href>` text reduced to the path component `urlsplit(...).path` yields
(absolute-URL hrefs enter the model already reduced), and whether a
`<collection>` resource type is present. -/
structure DavEntry where
  href : Option String
  isCollection : Bool
deriving DecidableEq, Repr

/-- `WebDavXmlUtils.parse_get_list_response` on a well-formed body: one urn
per response element carrying an href — a separator is prepended to the
href's path and the collection flag becomes the directory hint; elements
without an href are skipped. -/
def parse_get_list_response (entries : List DavEntry) : List Urn :=
  entries.filterMap (fun r => r.href.map (fun h => Urn.mk ("/" ++ h) r.isCollection))

/-- `ModuleInstaller.get_full_path` (line 226): root prefix concatenated
with the urn's path. -/
def get_full_path (s : WebDAVSettings) (u : Urn) : String :=
  s.root ++ u.path

/-- The queried directory's own normalized full path computed at line 304
of `list`. -/
def list_query_path (s : WebDAVSettings) (remote_path : String) : String :=
  Urn.normalize_path (get_full_path s (Urn.mk remote_path true))

/-- The urns `list` keeps (line 312): parsed entries whose path does not
compare equal to the queried directory's own path. -/
def list_kept_urns (s : WebDAVSettings) (remote_path : String)
    (entries : List DavEntry) : List Urn :=
  (parse_get_list_response entries).filter
    (fun u => Urn.compare_path (list_query_path s remote_path) u.path == false)

/-- `ModuleInstaller.list` result on a well-formed multistatus body (the
existence pre-check having passed): the filenames of the kept urns. -/
def list (s : WebDAVSettings) (remote_path : String) (entries : List DavEntry) :
    List String :=
  (list_kept_urns s remote_path entries).map Urn.filename

/-! ## Free-space parsing (`ModuleInstaller.free`, lines 315-323, and
`WebDavXmlUtils.parse_free_space_response`, lines 1320-1338) -/

/-- The multistatus body handed to `parse_free_space_response`: malformed
XML, or a well-formed document in which the `quota-available-bytes` node
is absent, present with no text (`text` is `None`), or present with
text. -/
inductive FreeSpaceBody where
  | malformed
  | wellFormed (quotaAvailableNode : Option (Option String))
deriving DecidableEq, Repr

/-- What `parse_free_space_response` hands back to `free`'s caller: a byte
count, or the empty string `str()` returned on malformed XML. -/
inductive FreeSpaceResult where
  | bytes (n : Int)
  | emptyString
deriving DecidableEq, Repr

/-- `WebDavXmlUtils.parse_free_space_response`: malformed XML is caught as
`XMLSyntaxError` and yields the empty string; a missing node raises
`MethodNotSupported`; a node without text makes `int(None)` raise
`TypeError`, caught and re-raised as `MethodNotSupported`; a node with
non-integer text raises an uncaught `ValueError`; otherwise the integer
value is returned. -/
def parse_free_space_response (body : FreeSpaceBody) (hostname : String) :
    Outcome FreeSpaceResult :=
  match body with
  | .malformed => .ok .emptyString
  | .wellFormed none => .fail (.methodNotSupported "free" hostname)
  | .wellFormed (some none) => .fail (.methodNotSupported "free" hostname)
  | .wellFormed (some (some txt)) =>
    match pyInt txt with
    | some n => .ok (.bytes n)
    | none => .crash "ValueError"

/-- `ModuleInstaller.free` with the dispatcher exchange already succeeded:
the parse of the response body is returned to the caller unchanged. -/
def free (s : WebDAVSettings) (body : FreeSpaceBody) : Outcome FreeSpaceResult :=
  parse_free_space_response body s.hostname

/-! ## Synchronizer freshness comparison
(`ModuleInstaller.is_local_more_recent`, lines 1133-1153, and the per-file
skip decision of `ModuleInstaller.push`, lines 1087-1091) -/

/-- `ModuleInstaller.is_local_more_recent`. `infoModified` is the outcome
of `self.info(remote_path)['modified']`: a raised typed error, or the
`modified` field (always present in the dict `info` builds, possibly with
`None` value). `parseDate` is the `dateutil` parser composed with
`datetime.timestamp` truncated to seconds; `none` models its
`ParserError`, a `ValueError`. The `except` clause catches only
`ValueError`, `RuntimeWarning` and `KeyError`: a typed WebDAV error from
the metadata fetch propagates, a `None` modified field makes the parser
raise an uncaught `TypeError`, and only a failed parse of a present string
returns `None`. -/
def is_local_more_recent (infoModified : Except WebDavError (Option String))
    (parseDate : String → Option Int) (localMtime : Int) : Outcome (Option Bool) :=
  match infoModified with
  | .error e => .fail e
  | .ok none => .crash "TypeError"
  | .ok (some s) =>
    match parseDate s with
    | none => .ok none
    | some remoteTs => .ok (some (decide (remoteTs < localMtime)))

/-- The skip decision of `push`'s file branch (lines 1087-1089): skip the
upload iff the name is in the remote listing and `not` of the comparison
result is truthy — which holds for `False` and for `None` alike. -/
def push_skips_file (inRemoteList : Bool) (cmp : Option Bool) : Bool :=
  inRemoteList && pyTruthyNot cmp

/-- Concrete connection settings used by witnesses. -/
def sampleSettings : WebDAVSettings :=
  { hostname := "https://host", root := "/", login := "u", password := "p",
    token := "", cert_path := "", key_path := "", disable_check := false }

/-- Concrete server oracle used by witnesses: only the root directory
exists, every MKCOL and PUT succeeds with 201. -/
def sampleOracle : ServerOracle :=
  { headStatus := fun p => if p = "/" then 200 else 404
    mkcolStatus := fun _ => 201
    putStatus := fun _ => 201 }

/-! ## Helper lemmas -/

/-- Closed form of the download progress loop: the `i`-th per-chunk call
reports `current + (i+1) * cs` regardless of the chunk sizes. -/
theorem download_loop_closed (total : Option Int) (cs : Nat) :
    ∀ (chunks : List Nat) (current : Nat),
      download_loop total cs chunks current =
        (List.range chunks.length).map (fun i => (current + (i + 1) * cs, total)) := by
  intro chunks
  induction chunks with
  | nil => intro current; simp [download_loop]
  | cons c rest ih =>
    intro current
    rw [download_loop, ih (current + cs), List.length_cons, List.range_succ_eq_map,
      List.map_cons, List.map_map]
    refine congrArg₂ _ (by rw [Nat.one_mul]) ?_
    refine List.map_congr_left (fun i _ => ?_)
    simp only [Function.comp, Nat.succ_eq_add_one]
    exact congrArg₂ Prod.mk (by ring) rfl

/-- The dispatcher passes a sub-400 response through unchanged. -/
theorem execute_request_lt_400 (s : WebDAVSettings) (action path : String)
    (resp : WebDavResponse) (h : resp.status < 400) :
    execute_request s action path resp = .ok resp := by
  unfold execute_request
  rw [if_neg (by omega), if_neg (by omega), if_neg (by omega), if_neg (by omega),
    if_neg (by omega)]

/-- `check` on a 200 HEAD response answers `True`. -/
theorem check_status_200 (s : WebDAVSettings) (path body : String)
    (h : s.disable_check = false) :
    check s ⟨200, body⟩ path = ([.head path], .ok true) := by
  simp only [check, h, Bool.false_eq_true, if_false,
    execute_request_lt_400 s "check" path ⟨200, body⟩ (show (200:Nat) < 400 by decide)]
  rfl

/-- `check` on a 404 HEAD response catches the dispatcher's not-found
error and answers `False`. -/
theorem check_status_404 (s : WebDAVSettings) (path body : String)
    (h : s.disable_check = false) :
    check s ⟨404, body⟩ path = ([.head path], .ok false) := by
  simp [check, h, execute_request]

/-- The MKCOL step swallows a 405 as success. -/
theorem mkcol_step_405 (s : WebDAVSettings) (o : ServerOracle) (p : String)
    (h : o.mkcolStatus p = 405) : mkcol_step s o p = .ok true := by
  simp [mkcol_step, execute_request, h]

/-- The MKCOL step passes a 201 through as success. -/
theorem mkcol_step_201 (s : WebDAVSettings) (o : ServerOracle) (p : String)
    (h : o.mkcolStatus p = 201) : mkcol_step s o p = .ok true := by
  simp only [mkcol_step, h, execute_request_lt_400 s "mkdir" p ⟨201, ""⟩ (show (201:Nat) < 400 by decide)]
  rfl

/-- The MKCOL step propagates any dispatcher error other than
`MethodNotSupported` unmodified. -/
theorem mkcol_step_error (s : WebDAVSettings) (o : ServerOracle) (p : String)
    (e : WebDavError)
    (hexec : execute_request s "mkdir" p ⟨o.mkcolStatus p, ""⟩ = .error e)
    (he : ∀ n hst, e ≠ .methodNotSupported n hst) : mkcol_step s o p = .error e := by
  unfold mkcol_step
  rw [hexec]
  cases e with
  | methodNotSupported n hst => exact absurd rfl (he n hst)
  | _ => rfl

/-- The PUT step passes a 201 through as success. -/
theorem put_step_201 (s : WebDAVSettings) (o : ServerOracle) (p : String)
    (h : o.putStatus p = 201) : put_step s o p = .ok () := by
  simp only [put_step, h, execute_request_lt_400 s "upload" p ⟨201, ""⟩
    (show (201 : Nat) < 400 by decide)]

/-- Trace of a recursive `mkdir` under a server where exactly the top `k`
ancestors of the requested directory exist (`take i` exists iff `i ≤ k`)
and every MKCOL answers 201: the existence checks descend from the parent
to the deepest existing ancestor, then the missing ancestors are created
top-down, and the call reports success. -/
theorem mkdir_fuel_trace (s : WebDAVSettings) (o : ServerOracle)
    (hs : s.disable_check = false) (k : Nat) :
    ∀ (d : Nat) (segs : List String) (fuel : Nat),
      segs.length = k + d + 1 →
      d + 1 ≤ fuel →
      (∀ i, i ≤ k → o.headStatus (dirPath (segs.take i)) = 200) →
      (∀ i, k < i → i ≤ segs.length → o.headStatus (dirPath (segs.take i)) = 404) →
      (∀ i, k < i → i ≤ segs.length → o.mkcolStatus (dirPath (segs.take i)) = 201) →
      mkdir_fuel s o fuel segs true =
        some ((List.range (d + 1)).map
                (fun t => ReqOp.head (dirPath (segs.take (k + d - t)))) ++
              (List.range (d + 1)).map
                (fun t => ReqOp.mkcol (dirPath (segs.take (k + 1 + t)))),
              .ok true) := by
  have hresp : ∀ (p : String) (st : Nat), o.headStatus p = st →
      o.headResp p = ⟨st, ""⟩ := fun p st h => by simp [ServerOracle.headResp, h]
  intro d
  induction d with
  | zero =>
    intro segs fuel hlen hfuel hex hmiss hmk
    obtain ⟨f, rfl⟩ : ∃ f, fuel = f + 1 := ⟨fuel - 1, by omega⟩
    have hdl : segs.dropLast = segs.take k := by
      rw [List.dropLast_eq_take, hlen, show k + 0 + 1 - 1 = k from by omega]
    have hall : segs.take (k + 1) = segs := by
      rw [show k + 1 = segs.length from by omega, List.take_length]
    have hhead : o.headStatus (dirPath segs.dropLast) = 200 := by
      rw [hdl]
      exact hex k (Nat.le_refl k)
    have hmk1 : o.mkcolStatus (dirPath segs) = 201 := by
      have h := hmk (k + 1) (by omega) (by omega)
      rwa [hall] at h
    have hr1 : List.range 1 = [0] := rfl
    simp only [mkdir_fuel, hresp _ 200 hhead, check_status_200 _ _ _ hs,
      mkcol_step_201 s o _ hmk1]
    rw [hr1, hdl]
    simp [hall]
  | succ d ih =>
    intro segs fuel hlen hfuel hex hmiss hmk
    obtain ⟨f, rfl⟩ : ∃ f, fuel = f + 1 := ⟨fuel - 1, by omega⟩
    have hdl : segs.dropLast = segs.take (k + d + 1) := by
      rw [List.dropLast_eq_take, hlen, show k + (d + 1) + 1 - 1 = k + d + 1 from by omega]
    have htt : ∀ i, i ≤ k + d + 1 → segs.dropLast.take i = segs.take i := by
      intro i hi
      rw [hdl, List.take_take, Nat.min_eq_left hi]
    have hdll : segs.dropLast.length = k + d + 1 := by
      rw [hdl, List.length_take, hlen]
      omega
    have hrec := ih segs.dropLast f hdll (by omega)
      (fun i hi => by
        rw [htt i (by omega)]
        exact hex i hi)
      (fun i hi1 hi2 => by
        rw [htt i (by omega)]
        exact hmiss i hi1 (by rw [hdll] at hi2; omega))
      (fun i hi1 hi2 => by
        rw [htt i (by omega)]
        exact hmk i hi1 (by rw [hdll] at hi2; omega))
    have hrec2 : mkdir_fuel s o f segs.dropLast true =
        some ((List.range (d + 1)).map
                (fun t => ReqOp.head (dirPath (segs.take (k + d - t)))) ++
              (List.range (d + 1)).map
                (fun t => ReqOp.mkcol (dirPath (segs.take (k + 1 + t)))),
          .ok true) := by
      rw [hrec]
      refine congrArg some (congrArg₂ Prod.mk (congrArg₂ _ ?_ ?_) rfl)
      · exact List.map_congr_left fun t ht => by rw [htt (k + d - t) (by omega)]
      · refine List.map_congr_left fun t ht => ?_
        have hti := List.mem_range.1 ht
        rw [htt (k + 1 + t) (by omega)]
    have hall : segs.take (k + d + 2) = segs := by
      rw [show k + d + 2 = segs.length from by omega, List.take_length]
    have hhead : o.headStatus (dirPath segs.dropLast) = 404 := by
      rw [hdl]
      exact hmiss (k + d + 1) (by omega) (by omega)
    have hmk2 : o.mkcolStatus (dirPath segs) = 201 := by
      have h := hmk (k + d + 2) (by omega) (by omega)
      rwa [hall] at h
    simp only [mkdir_fuel, hresp _ 404 hhead, check_status_404 _ _ _ hs, hrec2,
      mkcol_step_201 s o _ hmk2]
    refine congrArg some (congrArg₂ Prod.mk ?_ rfl)
    have hheads : (List.range (d + 1 + 1)).map
        (fun t => ReqOp.head (dirPath (segs.take (k + (d + 1) - t)))) =
        ReqOp.head (dirPath segs.dropLast) ::
          (List.range (d + 1)).map
            (fun t => ReqOp.head (dirPath (segs.take (k + d - t)))) := by
      rw [List.range_succ_eq_map, List.map_cons, List.map_map]
      refine congrArg₂ _ ?_ ?_
      · rw [show k + (d + 1) - 0 = k + d + 1 by omega, hdl]
      · refine List.map_congr_left fun t ht => ?_
        have h1 : k + (d + 1) - Nat.succ t = k + d - t := by omega
        simp only [Function.comp, h1]
    have hmkcols : (List.range (d + 1 + 1)).map
        (fun t => ReqOp.mkcol (dirPath (segs.take (k + 1 + t)))) =
        ((List.range (d + 1)).map
          (fun t => ReqOp.mkcol (dirPath (segs.take (k + 1 + t))))) ++
          [ReqOp.mkcol (dirPath segs)] := by
      have h2 : List.range (d + 1 + 1) = List.range (d + 1) ++ [d + 1] :=
        List.range_succ (n := d + 1)
      rw [h2, List.map_append, List.map_cons, List.map_nil]
      refine congrArg₂ _ rfl ?_
      rw [show k + 1 + (d + 1) = k + d + 2 by omega, hall]
    rw [hheads, hmkcols]
    simp [List.append_assoc]

/-! ## Claim theorems -/

/-- C1: every response obtained by the dispatcher's `execute_request` is
classified in fixed order with first match winning — 507 raises the
insufficient-storage error, 404 the not-found error carrying the requested
path, 423 the locked error, 405 the method-not-supported error carrying
action and hostname, any other status at least 400 the generic server
error carrying URL, code and body — and every response with status below
400 is returned to the caller unchanged. -/
theorem execute_request_classifies_in_order (s : WebDAVSettings)
    (action path : String) (resp : WebDavResponse) :
    (resp.status = 507 → execute_request s action path resp = .error .notEnoughSpace) ∧
    (resp.status = 404 →
      execute_request s action path resp = .error (.remoteResourceNotFound path)) ∧
    (resp.status = 423 →
      execute_request s action path resp = .error (.resourceLocked path)) ∧
    (resp.status = 405 →
      execute_request s action path resp = .error (.methodNotSupported action s.hostname)) ∧
    (400 ≤ resp.status → resp.status ≠ 507 → resp.status ≠ 404 → resp.status ≠ 423 →
      resp.status ≠ 405 →
      execute_request s action path resp =
        .error (.responseErrorCode (get_url s path) resp.status resp.body)) ∧
    (resp.status < 400 → execute_request s action path resp = .ok resp) := by
  refine ⟨fun h => ?_, fun h => ?_, fun h => ?_, fun h => ?_,
    fun h h1 h2 h3 h4 => ?_, fun h => ?_⟩ <;>
    unfold execute_request
  · rw [if_pos h]
  · rw [if_neg (by omega), if_pos h]
  · rw [if_neg (by omega), if_neg (by omega), if_pos h]
  · rw [if_neg (by omega), if_neg (by omega), if_neg (by omega), if_pos h]
  · rw [if_neg h1, if_neg h2, if_neg h3, if_neg h4, if_pos h]
  · rw [if_neg (by omega), if_neg (by omega), if_neg (by omega), if_neg (by omega),
      if_neg (by omega)]

/-- Witness for C1 at concrete responses. -/
theorem execute_request_classifies_in_order_witness :
    execute_request sampleSettings "list" "/p" ⟨507, "b"⟩ = .error .notEnoughSpace ∧
    execute_request sampleSettings "list" "/p" ⟨404, "b"⟩ =
      .error (.remoteResourceNotFound "/p") ∧
    execute_request sampleSettings "list" "/p" ⟨423, "b"⟩ =
      .error (.resourceLocked "/p") ∧
    execute_request sampleSettings "list" "/p" ⟨405, "b"⟩ =
      .error (.methodNotSupported "list" "https://host") ∧
    execute_request sampleSettings "list" "/p" ⟨500, "b"⟩ =
      .error (.responseErrorCode (get_url sampleSettings "/p") 500 "b") ∧
    execute_request sampleSettings "list" "/p" ⟨207, "b"⟩ = .ok ⟨207, "b"⟩ :=
  ⟨(execute_request_classifies_in_order sampleSettings "list" "/p" ⟨507, "b"⟩).1 rfl,
   (execute_request_classifies_in_order sampleSettings "list" "/p" ⟨404, "b"⟩).2.1 rfl,
   (execute_request_classifies_in_order sampleSettings "list" "/p" ⟨423, "b"⟩).2.2.1 rfl,
   ((execute_request_classifies_in_order sampleSettings "list" "/p"
      ⟨405, "b"⟩).2.2.2.1 rfl).trans (by decide),
   (execute_request_classifies_in_order sampleSettings "list" "/p" ⟨500, "b"⟩).2.2.2.2.1
      (by decide) (by decide) (by decide) (by decide) (by decide),
   (execute_request_classifies_in_order sampleSettings "list" "/p" ⟨207, "b"⟩).2.2.2.2.2
      (by decide)⟩

/-- C3: the progress callback of a chunked download is called once with
`(0, total)` before the first chunk and once per chunk thereafter, `total`
being the parsed content-length header or `None` when absent; the reported
byte counter advances by the configured chunk size 65536 on every call
independently of the bytes actually received, successive reported values
are strictly increasing, and the final value can exceed the true byte
count. `download_file`'s streaming stage behaves identically to
`download_from`'s. -/
theorem download_progress_reporting :
    chunk_size = 65536 ∧
    (∀ chunks : List Nat, download_from ⟨none, chunks⟩ =
      .ok ((0, none) ::
        (List.range chunks.length).map (fun i => ((i + 1) * chunk_size, none)))) ∧
    (∀ (chunks : List Nat) (clen : String) (n : Int), pyInt clen = some n →
      download_from ⟨some clen, chunks⟩ =
        .ok ((0, some n) ::
          (List.range chunks.length).map (fun i => ((i + 1) * chunk_size, some n)))) ∧
    (∀ resp, download_file_stream resp = download_from resp) ∧
    (∀ (chunks : List Nat) (total : Option Int),
      List.Chain' (· < ·)
        (((0, total) ::
          (List.range chunks.length).map (fun i => ((i + 1) * chunk_size, total))).map
            Prod.fst)) ∧
    (download_from ⟨none, [10]⟩ = .ok [(0, none), (65536, none)] ∧ 10 < 65536) := by
  have hshape : ∀ (chunks : List Nat) (total : Option Int),
      (0, total) :: download_loop total chunk_size chunks 0 =
        (0, total) :: (List.range chunks.length).map
          (fun i => ((i + 1) * chunk_size, total)) := by
    intro chunks total
    rw [download_loop_closed]
    exact congrArg _ (List.map_congr_left fun i _ => by rw [Nat.zero_add])
  refine ⟨rfl, ?_, ?_, ?_, ?_, by decide, by decide⟩
  · intro chunks
    rw [download_from]
    exact congrArg Outcome.ok (hshape chunks none)
  · intro chunks clen n hn
    rw [download_from]
    simp only [hn]
    exact congrArg Outcome.ok (hshape chunks (some n))
  · intro resp
    rw [download_file_stream, download_from]
  · intro chunks total
    have hmap : (((0, total) ::
        (List.range chunks.length).map
          (fun i => ((i + 1) * chunk_size, total))).map Prod.fst) =
        (List.range (chunks.length + 1)).map (fun i => i * chunk_size) := by
      rw [List.range_succ_eq_map, List.map_cons, List.map_cons, List.map_map,
        List.map_map]
      refine congrArg₂ _ (by rw [Nat.zero_mul]) (List.map_congr_left fun i _ => ?_)
      simp [Function.comp]
    rw [hmap, List.chain'_map, List.chain'_range_succ]
    intro m _
    simp only [chunk_size, Nat.succ_eq_add_one]
    omega

/-- Witness for C3's conditional part at a concrete parsed header. -/
theorem download_progress_reporting_witness :
    download_from ⟨some "100000", [65536, 34464]⟩ =
      .ok [(0, some 100000), (65536, some 100000), (131072, some 100000)] :=
  ((download_progress_reporting.2.2.1 [65536, 34464] "100000" 100000
    (by decide))).trans (by decide)

/-- C7: every entry of a multistatus listing whose normalized path equals
the queried directory's own path is excluded from the result, and a
PROPFIND answer for `/docs/` holding the directory's own entry plus one
for `/docs/file.txt` lists exactly `["file.txt"]`. -/
theorem list_excludes_self_reference :
    (∀ (s : WebDAVSettings) (rp : String) (entries : List DavEntry),
      ∀ u ∈ list_kept_urns s rp entries,
        Urn.compare_path (list_query_path s rp) u.path = false) ∧
    Installer.list sampleSettings "/docs/"
      [⟨some "/docs/", true⟩, ⟨some "/docs/file.txt", false⟩] = ["file.txt"] := by
  refine ⟨?_, by decide⟩
  intro s rp entries u hu
  have h := List.of_mem_filter hu
  simpa using h

/-- Witness for C7's universally quantified part at a concrete member. -/
theorem list_excludes_self_reference_witness :
    Urn.compare_path (list_query_path sampleSettings "/docs/")
      (Urn.mk "//docs/file.txt" false).path = false :=
  list_excludes_self_reference.1 sampleSettings "/docs/"
    [⟨some "/docs/", true⟩, ⟨some "/docs/file.txt", false⟩]
    (Urn.mk "//docs/file.txt" false) (by decide)

/-- C8: a configured bearer token always puts an
`Authorization: Bearer <token>` header on the request, and basic
credentials are supplied exactly when no token is configured, no session
auth is pre-set, and both login and password are non-empty — so a token
takes precedence over login/password. -/
theorem token_takes_precedence_over_basic_auth :
    (∀ (s : WebDAVSettings) (action : String) (ext : List String), s.token ≠ "" →
      ("Authorization: Bearer " ++ s.token) ∈ get_headers_raw s action ext) ∧
    (∀ (s : WebDAVSettings) (sessionAuthSet : Bool), s.token ≠ "" →
      request_auth s sessionAuthSet = none) ∧
    (∀ (s : WebDAVSettings) (sessionAuthSet : Bool),
      request_auth s sessionAuthSet = some (s.login, s.password) ↔
        (s.token = "" ∧ sessionAuthSet = false ∧ s.login ≠ "" ∧ s.password ≠ "")) := by
  refine ⟨?_, ?_, ?_⟩
  · intro s action ext h
    rw [get_headers_raw, if_pos h]
    exact List.mem_append_right _ (List.mem_singleton.2 rfl)
  · intro s sessionAuthSet h
    rw [request_auth, if_neg]
    simp [h]
  · intro s sessionAuthSet
    rw [request_auth]
    constructor
    · intro h
      by_cases hc : (!(s.token ≠ "") && !sessionAuthSet) && (s.login ≠ "" && s.password ≠ "")
      · simpa [and_assoc] using hc
      · rw [if_neg (by simpa using hc)] at h
        exact absurd h (by simp)
    · intro ⟨h1, h2, h3, h4⟩
      rw [if_pos (by simp [h1, h2, h3, h4])]

/-- Witness for C8 at a concrete token configuration. -/
theorem token_takes_precedence_over_basic_auth_witness :
    ("Authorization: Bearer tok123") ∈
      get_headers_raw { sampleSettings with token := "tok123" } "check" [] ∧
    request_auth { sampleSettings with token := "tok123" } false = none ∧
    request_auth sampleSettings false = some ("u", "p") :=
  ⟨token_takes_precedence_over_basic_auth.1
      { sampleSettings with token := "tok123" } "check" [] (by decide),
   token_takes_precedence_over_basic_auth.2.1
      { sampleSettings with token := "tok123" } false (by decide),
   (token_takes_precedence_over_basic_auth.2.2 sampleSettings false).2
      (by refine ⟨rfl, rfl, by decide, by decide⟩)⟩

/-- C2 counterexample: a failed metadata fetch (the typed not-found error
raised by `info`) is not caught by the `except (ValueError, RuntimeWarning,
KeyError)` clause, so `is_local_more_recent` propagates it instead of
returning the claimed `Unknown` (`None`). -/
theorem is_local_more_recent_fetch_failure_counterexample :
    is_local_more_recent (.error (.remoteResourceNotFound "/d/f.txt"))
      (fun _ => none) 0 = .fail (.remoteResourceNotFound "/d/f.txt") ∧
    is_local_more_recent (.error (.remoteResourceNotFound "/d/f.txt"))
      (fun _ => none) 0 ≠ .ok none := by decide

/-- C2 (amended): `is_local_more_recent` returns `Unknown` (`None`) when
parsing the remote modified timestamp fails, returns true exactly when the
remote modification time is strictly below the local one (false on exact
equality), propagates a failed metadata fetch as its typed error, and
`push` skips an upload of a file that exists remotely whenever the
comparison does not return true — on `Unknown` as well as on false. -/
theorem is_local_more_recent_compare_and_push_skip :
    (∀ (pd : String → Option Int) (lm : Int) (str : String), pd str = none →
      is_local_more_recent (.ok (some str)) pd lm = .ok none) ∧
    (∀ (pd : String → Option Int) (lm : Int) (str : String) (rts : Int),
      pd str = some rts →
      is_local_more_recent (.ok (some str)) pd lm = .ok (some (decide (rts < lm)))) ∧
    (∀ (pd : String → Option Int) (lm : Int) (str : String), pd str = some lm →
      is_local_more_recent (.ok (some str)) pd lm = .ok (some false)) ∧
    (∀ (e : WebDavError) (pd : String → Option Int) (lm : Int),
      is_local_more_recent (.error e) pd lm = .fail e) ∧
    (∀ (b : Bool) (cmp : Option Bool),
      push_skips_file b cmp = true ↔ (b = true ∧ cmp ≠ some true)) := by
  refine ⟨?_, ?_, ?_, ?_, ?_⟩
  · intro pd lm str h
    simp [is_local_more_recent, h]
  · intro pd lm str rts h
    simp [is_local_more_recent, h]
  · intro pd lm str h
    simp [is_local_more_recent, h]
  · intro e pd lm
    rfl
  · intro b cmp
    rcases cmp with _ | b2
    · cases b <;> simp [push_skips_file, pyTruthyNot]
    · cases b <;> cases b2 <;> simp [push_skips_file, pyTruthyNot]

/-- Witness for C2's amended theorem at concrete comparisons. -/
theorem is_local_more_recent_compare_and_push_skip_witness :
    is_local_more_recent (.ok (some "not a date")) (fun _ => none) 0 = .ok none ∧
    is_local_more_recent (.ok (some "Fri, 17 Oct 2008 01:02:03 GMT"))
      (fun _ => some 100) 200 = .ok (some true) ∧
    is_local_more_recent (.ok (some "Fri, 17 Oct 2008 01:02:03 GMT"))
      (fun _ => some 200) 200 = .ok (some false) :=
  ⟨is_local_more_recent_compare_and_push_skip.1 (fun _ => none) 0 "not a date" rfl,
   (is_local_more_recent_compare_and_push_skip.2.1 (fun _ => some 100) 200
      "Fri, 17 Oct 2008 01:02:03 GMT" 100 rfl).trans (by decide),
   is_local_more_recent_compare_and_push_skip.2.2.1 (fun _ => some 200) 200
      "Fri, 17 Oct 2008 01:02:03 GMT" rfl⟩

/-- C4 code-bug evidence: `upload_directory` deletes the existing remote
directory and recreates it, but its loop silently drops every local entry
whose name contains a hard-coded blacklist string (here `"utils"`),
contradicting the documented recursion into every nested file and
directory; an ordinary entry is kept. -/
theorem upload_directory_blacklist_skips_entries :
    upload_directory "pkg" true true true ["utils"] =
      .ok { deletedRemote := true, recreatedRemote := true, uploadedEntries := [] } ∧
    upload_directory "pkg" true true true ["module.py"] =
      .ok { deletedRemote := true, recreatedRemote := true,
            uploadedEntries := ["module.py"] } ∧
    upload_entry_aboba "utils" = true := by decide

/-- C9 counterexample: with the existence toggle off, a HEAD status that is
neither 200 nor 404 (here 423) does not make `check` return `False` — the
dispatcher's classified error propagates instead. -/
theorem check_non_200_counterexample :
    check sampleSettings ⟨423, ""⟩ "/p" = ([.head "/p"], .error (.resourceLocked "/p")) ∧
    (check sampleSettings ⟨423, ""⟩ "/p").2 ≠ .ok false ∧
    sampleSettings.disable_check = false := by decide

/-- C9 (amended): with `disable_check` on, `check` answers `True` without
issuing any request; with it off it issues the HEAD and answers `True`
exactly on status 200, `False` on 404 and on any other non-200 status
below 400, while a status at least 400 other than 404 propagates the
dispatcher's classified error. -/
theorem check_existence_classification :
    (∀ (s : WebDAVSettings) (resp : WebDavResponse) (path : String),
      s.disable_check = true → check s resp path = ([], .ok true)) ∧
    (∀ (s : WebDAVSettings) (resp : WebDavResponse) (path : String),
      s.disable_check = false → resp.status = 200 →
      check s resp path = ([.head path], .ok true)) ∧
    (∀ (s : WebDAVSettings) (resp : WebDavResponse) (path : String),
      s.disable_check = false → resp.status = 404 →
      check s resp path = ([.head path], .ok false)) ∧
    (∀ (s : WebDAVSettings) (resp : WebDavResponse) (path : String),
      s.disable_check = false → resp.status < 400 → resp.status ≠ 200 →
      check s resp path = ([.head path], .ok false)) ∧
    (∀ (s : WebDAVSettings) (resp : WebDavResponse) (path : String)
        (e : WebDavError),
      s.disable_check = false → execute_request s "check" path resp = .error e →
      (∀ p, e ≠ .remoteResourceNotFound p) →
      check s resp path = ([.head path], .error e)) := by
  refine ⟨?_, ?_, ?_, ?_, ?_⟩
  · intro s resp path h
    simp [check, h]
  · intro s resp path h h200
    rcases resp with ⟨st, body⟩
    cases h200
    exact check_status_200 s path body h
  · intro s resp path h h404
    rcases resp with ⟨st, body⟩
    cases h404
    exact check_status_404 s path body h
  · intro s resp path h hlt hne
    simp only [check, h, Bool.false_eq_true, if_false,
      execute_request_lt_400 s "check" path resp hlt]
    simp [hne]
  · intro s resp path e h hexec he
    simp only [check, h, Bool.false_eq_true, if_false, hexec]

/-- Witness for C9's amended theorem at concrete statuses. -/
theorem check_existence_classification_witness :
    check { sampleSettings with disable_check := true } ⟨404, ""⟩ "/p" = ([], .ok true) ∧
    check sampleSettings ⟨200, ""⟩ "/p" = ([.head "/p"], .ok true) ∧
    check sampleSettings ⟨404, ""⟩ "/p" = ([.head "/p"], .ok false) ∧
    check sampleSettings ⟨301, ""⟩ "/p" = ([.head "/p"], .ok false) ∧
    check sampleSettings ⟨507, ""⟩ "/p" = ([.head "/p"], .error .notEnoughSpace) :=
  ⟨check_existence_classification.1 _ ⟨404, ""⟩ "/p" rfl,
   check_existence_classification.2.1 sampleSettings ⟨200, ""⟩ "/p" rfl rfl,
   check_existence_classification.2.2.1 sampleSettings ⟨404, ""⟩ "/p" rfl rfl,
   check_existence_classification.2.2.2.1 sampleSettings ⟨301, ""⟩ "/p" rfl
     (by decide) (by decide),
   check_existence_classification.2.2.2.2 sampleSettings ⟨507, ""⟩ "/p"
     .notEnoughSpace rfl (by decide) (fun p h => WebDavError.noConfusion h)⟩

/-- C10 counterexample: a well-formed body that does contain the
`quota-available-bytes` node — with empty text — still raises the
method-not-supported error, so "only a well-formed body lacking the node"
raises it is false. -/
theorem free_space_node_present_counterexample :
    parse_free_space_response (.wellFormed (some none)) "https://host" =
      .fail (.methodNotSupported "free" "https://host") ∧
    FreeSpaceBody.wellFormed (some none) ≠ FreeSpaceBody.malformed ∧
    FreeSpaceBody.wellFormed (some none) ≠ FreeSpaceBody.wellFormed none := by decide

/-- C10 (amended): on malformed XML `parse_free_space_response` returns the
empty string — not an error and not an integer — which `free` passes to its
caller; a well-formed body raises the method-not-supported error when the
`quota-available-bytes` node is absent or carries no text; a node with
unparsable text raises an uncaught `ValueError`; a node with integer text
yields that integer. -/
theorem parse_free_space_classification :
    (∀ s : WebDAVSettings, free s .malformed = .ok .emptyString) ∧
    (∀ n : Int, FreeSpaceResult.emptyString ≠ .bytes n) ∧
    (∀ h : String, parse_free_space_response (.wellFormed none) h =
      .fail (.methodNotSupported "free" h)) ∧
    (∀ h : String, parse_free_space_response (.wellFormed (some none)) h =
      .fail (.methodNotSupported "free" h)) ∧
    (∀ (h txt : String) (n : Int), pyInt txt = some n →
      parse_free_space_response (.wellFormed (some (some txt))) h = .ok (.bytes n)) ∧
    (∀ h txt : String, pyInt txt = none →
      parse_free_space_response (.wellFormed (some (some txt))) h =
        .crash "ValueError") := by
  refine ⟨fun s => rfl, fun n h => FreeSpaceResult.noConfusion h, fun h => rfl,
    fun h => rfl, ?_, ?_⟩
  · intro h txt n hn
    simp [parse_free_space_response, hn]
  · intro h txt hn
    simp [parse_free_space_response, hn]

/-- Witness for C10's amended theorem at concrete node texts. -/
theorem parse_free_space_classification_witness :
    parse_free_space_response (.wellFormed (some (some "1024"))) "https://host" =
      .ok (.bytes 1024) ∧
    parse_free_space_response (.wellFormed (some (some "xyz"))) "https://host" =
      .crash "ValueError" :=
  ⟨(parse_free_space_classification.2.2.2.2.1 "https://host" "1024" 1024
      (by decide)),
   parse_free_space_classification.2.2.2.2.2 "https://host" "xyz" (by decide)⟩

/-- C5 counterexample: `mkdir` is not the only operation converting a
dispatcher-raised error into a normal return — `check` catches the
dispatcher's not-found error (HEAD 404) and returns `False`. -/
theorem check_swallows_dispatcher_not_found :
    execute_request sampleSettings "check" "/p" ⟨404, ""⟩ =
      .error (.remoteResourceNotFound "/p") ∧
    check sampleSettings ⟨404, ""⟩ "/p" = ([.head "/p"], .ok false) := by decide

/-- C5 (amended): `mkdir` treats a method-not-supported answer to the MKCOL
(HTTP 405) as success `True`; every other dispatcher-raised error on the
MKCOL propagates out of `mkdir` unmodified; a missing parent with the
recursive flag unset raises the remote-parent-not-found error without
issuing the MKCOL; but `mkdir` is not the only swallowing operation, since
`check` converts the dispatcher's not-found error into a `False` return. -/
theorem mkdir_swallows_only_method_not_supported :
    (∀ (s : WebDAVSettings) (o : ServerOracle) (segs : List String) (fuel : Nat)
        (r : Bool),
      s.disable_check = false →
      o.headStatus (dirPath segs.dropLast) = 200 →
      o.mkcolStatus (dirPath segs) = 405 →
      mkdir_fuel s o (fuel + 1) segs r =
        some ([.head (dirPath segs.dropLast), .mkcol (dirPath segs)], .ok true)) ∧
    (∀ (s : WebDAVSettings) (o : ServerOracle) (segs : List String) (fuel : Nat)
        (r : Bool) (e : WebDavError),
      s.disable_check = false →
      o.headStatus (dirPath segs.dropLast) = 200 →
      execute_request s "mkdir" (dirPath segs) ⟨o.mkcolStatus (dirPath segs), ""⟩ =
        .error e →
      (∀ n hst, e ≠ .methodNotSupported n hst) →
      mkdir_fuel s o (fuel + 1) segs r =
        some ([.head (dirPath segs.dropLast), .mkcol (dirPath segs)], .error e)) ∧
    (∀ (s : WebDAVSettings) (o : ServerOracle) (segs : List String) (fuel : Nat),
      s.disable_check = false →
      o.headStatus (dirPath segs.dropLast) = 404 →
      mkdir_fuel s o (fuel + 1) segs false =
        some ([.head (dirPath segs.dropLast)],
          .error (.remoteParentNotFound (dirPath segs)))) ∧
    (∀ (s : WebDAVSettings) (path : String), s.disable_check = false →
      check s ⟨404, ""⟩ path = ([.head path], .ok false)) := by
  have hresp : ∀ (o : ServerOracle) (p : String) (st : Nat), o.headStatus p = st →
      o.headResp p = ⟨st, ""⟩ := by
    intro o p st h
    simp [ServerOracle.headResp, h]
  refine ⟨?_, ?_, ?_, fun s path h => check_status_404 s path "" h⟩
  · intro s o segs fuel r h hhead hmk
    simp only [mkdir_fuel, hresp o _ 200 hhead, check_status_200 _ _ _ h,
      mkcol_step_405 s o _ hmk]
    rfl
  · intro s o segs fuel r e h hhead hexec he
    simp only [mkdir_fuel, hresp o _ 200 hhead, check_status_200 _ _ _ h,
      mkcol_step_error s o _ e hexec he]
    rfl
  · intro s o segs fuel h hhead
    simp only [mkdir_fuel, hresp o _ 404 hhead, check_status_404 _ _ _ h]
    rfl

/-- Witness for C5's amended theorem at a concrete directory and oracle. -/
theorem mkdir_swallows_only_method_not_supported_witness :
    mkdir_fuel sampleSettings
      { headStatus := fun p => if p = "/" then 200 else 404,
        mkcolStatus := fun _ => 405, putStatus := fun _ => 201 }
      1 ["a"] false = some ([.head "/", .mkcol "/a/"], .ok true) ∧
    mkdir_fuel sampleSettings
      { headStatus := fun p => if p = "/" then 200 else 404,
        mkcolStatus := fun _ => 423, putStatus := fun _ => 201 }
      1 ["a"] false =
      some ([.head "/", .mkcol "/a/"], .error (.resourceLocked "/a/")) ∧
    mkdir_fuel sampleSettings sampleOracle 1 ["a", "b"] false =
      some ([.head "/a/"], .error (.remoteParentNotFound "/a/b/")) :=
  ⟨(mkdir_swallows_only_method_not_supported.1 sampleSettings
      { headStatus := fun p => if p = "/" then 200 else 404,
        mkcolStatus := fun _ => 405, putStatus := fun _ => 201 }
      ["a"] 0 false rfl (by decide) rfl).trans (by decide),
   (mkdir_swallows_only_method_not_supported.2.1 sampleSettings
      { headStatus := fun p => if p = "/" then 200 else 404,
        mkcolStatus := fun _ => 423, putStatus := fun _ => 201 }
      ["a"] 0 false (.resourceLocked "/a/") rfl (by decide) (by decide)
      (fun n hst h => WebDavError.noConfusion h)).trans (by decide),
   (mkdir_swallows_only_method_not_supported.2.2.1 sampleSettings sampleOracle
      ["a", "b"] 0 rfl (by decide)).trans (by decide)⟩

/-- C6: `upload_file` of an existing local file to a remote file path whose
parent directory does not exist raises the remote-parent-not-found error
without issuing the upload when `force` is false; with `force` true, under
a server whose existing ancestors are exactly the top `k` prefixes of the
parent (ancestor-closed existence) and whose creation requests succeed, it
first creates every missing ancestor directory top-down via the recursive
`mkdir` and then performs the PUT. -/
theorem upload_file_creates_missing_parents :
    (∀ (s : WebDAVSettings) (o : ServerOracle) (lp rp : String)
        (fsegs psegs : List String),
      pathSegs rp = fsegs → fsegs.dropLast = psegs →
      s.disable_check = false →
      endsInSlash rp = false →
      o.headStatus (dirPath psegs) = 404 →
      upload_file s o lp true false rp false =
        some ([.head (dirPath psegs)],
          .error (.remoteParentNotFound (filePathOf fsegs)))) ∧
    (∀ (s : WebDAVSettings) (o : ServerOracle) (lp rp : String)
        (fsegs psegs : List String) (k : Nat),
      pathSegs rp = fsegs → fsegs.dropLast = psegs →
      s.disable_check = false →
      endsInSlash rp = false →
      k < psegs.length →
      (∀ i, i ≤ k → o.headStatus (dirPath (psegs.take i)) = 200) →
      (∀ i, k < i → i ≤ psegs.length →
        o.headStatus (dirPath (psegs.take i)) = 404) →
      (∀ i, k < i → i ≤ psegs.length →
        o.mkcolStatus (dirPath (psegs.take i)) = 201) →
      o.putStatus (filePathOf fsegs) = 201 →
      upload_file s o lp true false rp true =
        some (ReqOp.head (dirPath psegs) ::
          ((List.range (psegs.length - k)).map
            (fun t => ReqOp.head (dirPath (psegs.take (psegs.length - 1 - t)))) ++
           (List.range (psegs.length - k)).map
            (fun t => ReqOp.mkcol (dirPath (psegs.take (k + 1 + t)))) ++
           [ReqOp.put (filePathOf fsegs)]),
          .ok ())) := by
  constructor
  · intro s o lp rp fsegs psegs hf hp hs hend hhead
    have hdirflag : (Urn.mk rp false).isDirFlag = false := by
      simp [Urn.isDirFlag, hend]
    have hresp : o.headResp (dirPath psegs) = ⟨404, ""⟩ := by
      simp [ServerOracle.headResp, hhead]
    simp only [upload_file, Bool.not_true, hdirflag, hf, hp, hresp,
      check_status_404 _ _ _ hs]
    rfl
  · intro s o lp rp fsegs psegs k hf hp hs hend hk hex hmiss hmk hput
    have hdirflag : (Urn.mk rp false).isDirFlag = false := by
      simp [Urn.isDirFlag, hend]
    have hhead : o.headStatus (dirPath psegs) = 404 := by
      have h := hmiss psegs.length hk (Nat.le_refl _)
      rwa [List.take_length] at h
    have hresp : o.headResp (dirPath psegs) = ⟨404, ""⟩ := by
      simp [ServerOracle.headResp, hhead]
    have hlenform : psegs.length = k + (psegs.length - k - 1) + 1 := by omega
    have hm := mkdir_fuel_trace s o hs k (psegs.length - k - 1) psegs
      (psegs.length + 1) hlenform (by omega) hex hmiss hmk
    have hcount : psegs.length - k - 1 + 1 = psegs.length - k := by omega
    have hfun1 : (fun t => ReqOp.head
        (dirPath (psegs.take (k + (psegs.length - k - 1) - t)))) =
        (fun t => ReqOp.head (dirPath (psegs.take (psegs.length - 1 - t)))) := by
      funext t
      rw [show k + (psegs.length - k - 1) - t = psegs.length - 1 - t from by omega]
    have hm2 : mkdir_fuel s o (psegs.length + 1) psegs true =
        some ((List.range (psegs.length - k)).map
                (fun t => ReqOp.head (dirPath (psegs.take (psegs.length - 1 - t)))) ++
              (List.range (psegs.length - k)).map
                (fun t => ReqOp.mkcol (dirPath (psegs.take (k + 1 + t)))),
          .ok true) := by
      rw [hm, hcount, hfun1]
    simp only [upload_file, Bool.not_true, hdirflag, hf, hp, hresp,
      check_status_404 _ _ _ hs, hm2, put_step_201 s o _ hput]
    simp [List.append_assoc]

/-- Witness for C6 at the spec's scenario B: uploading to `/a/b/c.txt`
against a server where only the root exists. -/
theorem upload_file_creates_missing_parents_witness :
    upload_file sampleSettings sampleOracle "loc.txt" true false "/a/b/c.txt" false =
      some ([.head "/a/b/"], .error (.remoteParentNotFound "/a/b/c.txt")) ∧
    upload_file sampleSettings sampleOracle "loc.txt" true false "/a/b/c.txt" true =
      some ([.head "/a/b/", .head "/a/", .head "/",
             .mkcol "/a/", .mkcol "/a/b/", .put "/a/b/c.txt"], .ok ()) :=
  ⟨(upload_file_creates_missing_parents.1 sampleSettings sampleOracle "loc.txt"
      "/a/b/c.txt" ["a", "b", "c.txt"] ["a", "b"] (by decide) (by decide) rfl
      (by decide) (by decide)).trans (by decide),
   (upload_file_creates_missing_parents.2 sampleSettings sampleOracle "loc.txt"
      "/a/b/c.txt" ["a", "b", "c.txt"] ["a", "b"] 0 (by decide) (by decide) rfl
      (by decide) (by decide) (by decide)
      (by
        intro i h1 h2
        simp only [List.length_cons, List.length_nil] at h2
        interval_cases i <;> decide)
      (by
        intro i h1 h2
        simp only [List.length_cons, List.length_nil] at h2
        interval_cases i <;> decide)
      (by decide)).trans (by decide)⟩

end Installer
